import Mathlib

/-!
Verification of the mindbridge database layer: a shallow embedding of
`src/mindbridge/database/models.py`, `connection.py` and `health.py`,
with theorems checking the specification's claims against the code.
-/

set_option maxRecDepth 16384

namespace Mindbridge

/-! ## Python value model (for `models.py` validators) -/

/-- A Python value, restricted to the shapes reachable in the validators:
numbers (`int`, `float`, `bool` — `bool` is a subclass of `int`), strings,
lists and `None`. -/
inductive PyVal where
  | pyInt (n : Int)
  | pyFloat (n : Int)
  | pyBool (b : Bool)
  | pyStr (s : String)
  | pyList (xs : List PyVal)
  | pyNone

/-- Python `isinstance(x, int | float)`. `bool` counts because it subclasses
`int`. -/
def isNumber : PyVal → Bool
  | .pyInt _ => true
  | .pyFloat _ => true
  | .pyBool _ => true
  | _ => false

/-- `VectorDocument._validate_embedding` (models.py lines 94-116): the value
must be a `list`, of length exactly 1536, with every element a number. -/
def validate_embedding (value : PyVal) : Except String (List PyVal) :=
  match value with
  | .pyList xs =>
      if xs.length ≠ 1536 then
        .error ("Embedding must be exactly 1536 dimensions, got " ++ toString xs.length)
      else if ¬ (xs.all isNumber) then
        .error "All embedding values must be numbers"
      else
        .ok xs
  | _ => .error "Embedding must be a list of floats"

/-! ## String helpers (Python whitespace, lower, strip, substring) -/

/-- Python regex `\s` / `str.strip` whitespace, on the ASCII range. -/
def pyIsSpace (c : Char) : Bool :=
  c = ' ' || c = '\t' || c = '\n' || c = '\x0d' || c = '\x0b' || c = '\x0c'

/-- Python `str.lower()` (ASCII case mapping). -/
def pyLower (s : String) : String := ⟨s.data.map Char.toLower⟩

/-- Python `str.strip()`: drop leading and trailing whitespace. -/
def pyStrip (s : String) : String :=
  ⟨((s.data.dropWhile pyIsSpace).reverse.dropWhile pyIsSpace).reverse⟩

/-- Whether the first list starts with the second. -/
def listStartsWith : List Char → List Char → Bool
  | _, [] => true
  | [], _ :: _ => false
  | a :: as, b :: bs => a == b && listStartsWith as bs

/-- Whether `needle` occurs as a contiguous run inside `hay`. -/
def listFind : (hay needle : List Char) → Bool
  | [], needle => needle.isEmpty
  | hay@(_ :: t), needle => listStartsWith hay needle || listFind t needle

/-- Python `needle in hay` on strings: substring containment. -/
def strContains (hay needle : String) : Bool :=
  listFind hay.data needle.data

/-! ## `Repository._validate_url` (models.py lines 169-195) -/

/-- The character class `[^\s/$.?#]` of the URL regex, negated: characters the
first post-scheme character may NOT be. -/
def urlForbiddenFirst (c : Char) : Bool :=
  pyIsSpace c || c = '/' || c = '$' || c = '.' || c = '?' || c = '#'

/-- Match of the regex tail `[^\s/$.?#].[^\s]*$` against the characters after
the scheme, with Python `$` semantics (end of string, or just before one
trailing newline): one character outside the class, one character other than
newline, then only non-whitespace to the end. -/
def urlTailMatch (cs : List Char) : Bool :=
  let body := if cs.getLast? = some '\n' then cs.dropLast else cs
  match body with
  | c1 :: c2 :: rest =>
      !(urlForbiddenFirst c1) && !(c2 = '\n') && rest.all (fun c => !(pyIsSpace c))
  | _ => false

/-- Python `re.match(r"^https?://[^\s/$.?#].[^\s]*$", s)` as a Boolean. -/
def pyUrlRegexMatch (s : String) : Bool :=
  (s.data.take 7 == "http://".data && urlTailMatch (s.data.drop 7)) ||
  (s.data.take 8 == "https://".data && urlTailMatch (s.data.drop 8))

/-- `Repository._validate_url`: reject empty, reject regex mismatch, reject
values whose lowercase form does not contain `"github.com"` as a substring. -/
def validate_url (value : String) : Except String String :=
  if value = "" then .error "URL cannot be empty"
  else if !(pyUrlRegexMatch value) then .error "Invalid GitHub URL format"
  else if !(strContains (pyLower value) "github.com") then
    .error "URL must be a GitHub repository"
  else .ok value

/-- The host (authority) component of an HTTP(S) URL: the characters after the
scheme up to the first `/`, `?`, `#` or `:`; `none` when the scheme is absent.
Used only to state the specification's "host matches the expected code-hosting
domain" reading, for comparison with `validate_url`. -/
def urlHost (s : String) : Option (List Char) :=
  if s.data.take 7 == "http://".data then
    some ((s.data.drop 7).takeWhile (fun c => !(c == '/' || c == '?' || c == '#' || c == ':')))
  else if s.data.take 8 == "https://".data then
    some ((s.data.drop 8).takeWhile (fun c => !(c == '/' || c == '?' || c == '#' || c == ':')))
  else none

/-- Specification-side predicate for the claim "well-formed HTTP(S) URL whose
host matches the expected code-hosting domain (github.com)": the scheme is
`http`/`https` and the host component is exactly `github.com`
(case-insensitively). -/
def spec_url_is_github (s : String) : Bool :=
  match urlHost s with
  | some h => h.map Char.toLower == "github.com".data
  | none => false

/-! ## `Document._validate_content` (models.py lines 272-288) and
`VectorDocument` construction (which has NO content validator) -/

/-- `Document._validate_content`: `None`, the empty string, and
whitespace-only strings are rejected. -/
def document_validate_content (value : Option String) : Except String String :=
  match value with
  | none => .error "Content cannot be empty"
  | some s =>
      if s = "" then .error "Content cannot be empty"
      else if pyStrip s = "" then .error "Content cannot be empty"
      else .ok s

/-- The fields of a `Document` relevant to validation. -/
structure DocumentRec where
  title : String
  content : String
  repository_id : Int
deriving DecidableEq, Repr

/-- `Document(...)` construction: the `content` validator runs on assignment. -/
def Document_new (title : String) (content : Option String) (repository_id : Int) :
    Except String DocumentRec :=
  match document_validate_content content with
  | .error e => .error e
  | .ok c => .ok ⟨title, c, repository_id⟩

/-- The fields of a `VectorDocument` relevant to validation. -/
structure VectorDocumentRec where
  content : String
  embedding : List PyVal

/-- `VectorDocument(...)` construction: only `embedding` has a validator
(`_validate_embedding`); `content` is stored as given, unvalidated. -/
def VectorDocument_new (content : String) (embedding : PyVal) :
    Except String VectorDocumentRec :=
  match validate_embedding embedding with
  | .error e => .error e
  | .ok xs => .ok ⟨content, xs⟩

/-! ## Enumerations and their validators (models.py lines 20-47, 197-221, 341-387) -/

/-- `RepositoryStatus` enumeration. -/
inductive RepositoryStatus where
  | pending | cloning | processing | completed | failed
deriving DecidableEq, Repr

/-- The `.value` string of each `RepositoryStatus` member. -/
def RepositoryStatus.value : RepositoryStatus → String
  | .pending => "pending"
  | .cloning => "cloning"
  | .processing => "processing"
  | .completed => "completed"
  | .failed => "failed"

/-- Python `RepositoryStatus(s)`: lookup of a member by value, in declaration
order. -/
def repositoryStatusOfString (s : String) : Option RepositoryStatus :=
  if s = "pending" then some .pending
  else if s = "cloning" then some .cloning
  else if s = "processing" then some .processing
  else if s = "completed" then some .completed
  else if s = "failed" then some .failed
  else none

/-- `JobStatus` enumeration. -/
inductive JobStatus where
  | pending | running | completed | failed | cancelled
deriving DecidableEq, Repr

/-- The `.value` string of each `JobStatus` member. -/
def JobStatus.value : JobStatus → String
  | .pending => "pending"
  | .running => "running"
  | .completed => "completed"
  | .failed => "failed"
  | .cancelled => "cancelled"

/-- Python `JobStatus(s)`: lookup of a member by value. -/
def jobStatusOfString (s : String) : Option JobStatus :=
  if s = "pending" then some .pending
  else if s = "running" then some .running
  else if s = "completed" then some .completed
  else if s = "failed" then some .failed
  else if s = "cancelled" then some .cancelled
  else none

/-- `JobType` enumeration. -/
inductive JobType where
  | clone | analysis | embedding | indexing | cleanup
deriving DecidableEq, Repr

/-- The `.value` string of each `JobType` member. -/
def JobType.value : JobType → String
  | .clone => "clone"
  | .analysis => "analysis"
  | .embedding => "embedding"
  | .indexing => "indexing"
  | .cleanup => "cleanup"

/-- Python `JobType(s)`: lookup of a member by value. -/
def jobTypeOfString (s : String) : Option JobType :=
  if s = "clone" then some .clone
  else if s = "analysis" then some .analysis
  else if s = "embedding" then some .embedding
  else if s = "indexing" then some .indexing
  else if s = "cleanup" then some .cleanup
  else none

/-- `Repository._validate_status`: a string is coerced through the
enumeration (failure lists the accepted values); a member passes through. -/
def repository_validate_status (value : RepositoryStatus ⊕ String) :
    Except String RepositoryStatus :=
  match value with
  | .inl m => .ok m
  | .inr s =>
      match repositoryStatusOfString s with
      | some m => .ok m
      | none => .error "Status must be one of: pending, cloning, processing, completed, failed"

/-- `Job._validate_status`: a string is coerced through the enumeration
(failure lists the accepted values); a member passes through. -/
def job_validate_status (value : JobStatus ⊕ String) : Except String JobStatus :=
  match value with
  | .inl m => .ok m
  | .inr s =>
      match jobStatusOfString s with
      | some m => .ok m
      | none => .error "Status must be one of: pending, running, completed, failed, cancelled"

/-- `Job._validate_job_type`: a string is coerced through the enumeration
(failure lists the accepted values); a member passes through. -/
def job_validate_job_type (value : JobType ⊕ String) : Except String JobType :=
  match value with
  | .inl m => .ok m
  | .inr s =>
      match jobTypeOfString s with
      | some m => .ok m
      | none => .error "Job type must be one of: clone, analysis, embedding, indexing, cleanup"

/-! ## Connection manager (connection.py) -/

/-- The pooling configuration held by `DatabaseEngine.__init__`
(connection.py lines 18-48), with the source's defaults. -/
structure EngineConfig where
  database_url : String
  pool_size : Int := 10
  max_overflow : Int := 20
  pool_timeout : Int := 30
  pool_recycle : Int := 3600
  pool_pre_ping : Bool := true
  echo : Bool := false
deriving DecidableEq, Repr

/-- A constructed pooled engine (`create_async_engine` result): an identity
for the instance plus the configuration it was built from. -/
structure AsyncEngine where
  engineId : Nat
  config : EngineConfig
deriving DecidableEq, Repr

/-- The mutable state of one `DatabaseEngine` manager: its identity, stored
configuration, and the `_engine` / `_session_factory` slots (both start
uninitialized). -/
structure DatabaseEngineState where
  managerId : Nat
  config : EngineConfig
  _engine : Option AsyncEngine
  _session_factory : Option Nat
deriving DecidableEq, Repr

/-- `DatabaseEngine.__init__`: store the configuration, leave `_engine` and
`_session_factory` as `None`. -/
def DatabaseEngine_init (managerId : Nat) (cfg : EngineConfig) : DatabaseEngineState :=
  ⟨managerId, cfg, none, none⟩

/-- The `DatabaseEngine.engine` property (connection.py lines 50-63): when
`_engine` is `None`, construct the engine from the stored configuration
(`freshId` is the identity the construction would produce) and cache it;
otherwise return the cached instance unchanged. -/
def DatabaseEngine.engine (s : DatabaseEngineState) (freshId : Nat) :
    AsyncEngine × DatabaseEngineState :=
  match s._engine with
  | some e => (e, s)
  | none =>
      let e : AsyncEngine := ⟨freshId, s.config⟩
      (e, { s with _engine := some e })

/-- `DatabaseEngine.close` (connection.py lines 93-98): when `_engine` is set,
dispose it (the second component counts `dispose` calls) and reset both slots
to `None`; otherwise do nothing. -/
def DatabaseEngine.close (s : DatabaseEngineState) : DatabaseEngineState × Nat :=
  match s._engine with
  | some _ => ({ s with _engine := none, _session_factory := none }, 1)
  | none => (s, 0)

/-- Python `int(s)` on a string: optional surrounding whitespace, an optional
sign, then at least one digit. -/
def pyParseInt (s : String) : Except String Int :=
  let core := (s.data.dropWhile pyIsSpace).reverse.dropWhile pyIsSpace |>.reverse
  let digitsVal : List Char → Int := fun ds =>
    Int.ofNat (ds.foldl (fun a c => a * 10 + (c.toNat - 48)) 0)
  let bad : Except String Int :=
    .error ("invalid literal for int() with base 10: " ++ s)
  match core with
  | '-' :: ds => if ds ≠ [] ∧ ds.all Char.isDigit then .ok (-(digitsVal ds)) else bad
  | '+' :: ds => if ds ≠ [] ∧ ds.all Char.isDigit then .ok (digitsVal ds) else bad
  | ds => if ds ≠ [] ∧ ds.all Char.isDigit then .ok (digitsVal ds) else bad

/-- `get_async_engine` (connection.py lines 105-136) over the global slot
`_database_engine` (`g`): return the existing manager unchanged, or build one
from the environment; `freshId` is the identity a new manager would get.
Returns the manager together with the new global slot. -/
def get_async_engine (env : String → Option String) (g : Option DatabaseEngineState)
    (freshId : Nat) : Except String (DatabaseEngineState × Option DatabaseEngineState) :=
  match g with
  | some m => .ok (m, some m)
  | none =>
      match env "DATABASE_URL" with
      | none => .error "DATABASE_URL environment variable is required"
      | some url =>
          if url = "" then .error "DATABASE_URL environment variable is required"
          else
            let echo := pyLower ((env "DB_ECHO").getD "false") = "true"
            match pyParseInt ((env "DB_POOL_SIZE").getD "10"),
                  pyParseInt ((env "DB_MAX_OVERFLOW").getD "20"),
                  pyParseInt ((env "DB_POOL_TIMEOUT").getD "30"),
                  pyParseInt ((env "DB_POOL_RECYCLE").getD "3600") with
            | .ok ps, .ok mo, .ok pt, .ok pr =>
                let pp := pyLower ((env "DB_POOL_PRE_PING").getD "true") = "true"
                let m := DatabaseEngine_init freshId ⟨url, ps, mo, pt, pr, pp, echo⟩
                .ok (m, some m)
            | .error e, _, _, _ => .error e
            | _, .error e, _, _ => .error e
            | _, _, .error e, _ => .error e
            | _, _, _, .error e => .error e

/-- `close_database_engine` (connection.py lines 139-144): close the global
manager when present and clear the slot; a `None` slot is left as is. The
second component counts `dispose` calls. -/
def close_database_engine (g : Option DatabaseEngineState) :
    Option DatabaseEngineState × Nat :=
  match g with
  | some m => (none, (DatabaseEngine.close m).2)
  | none => (none, 0)

/-! ## Scoped session (`DatabaseEngine.get_session`, connection.py lines 76-91) -/

/-- A raised Python error: either an `Exception` subclass (caught by
`except Exception`) or a `BaseException` that is not an `Exception`, such as
`KeyboardInterrupt` or `asyncio.CancelledError`. -/
inductive PyExc where
  | exc (msg : String)
  | baseExc (msg : String)
deriving DecidableEq, Repr

/-- Whether a raised error is an instance of `Exception`. -/
def PyExc.isException : PyExc → Bool
  | .exc _ => true
  | .baseExc _ => false

/-- An observable operation on the underlying session. -/
inductive SessionEvent where
  | rollback
  | close
deriving DecidableEq, Repr

/-- `DatabaseEngine.get_session`: run the caller's body inside
`async with self.session_factory() as session: try: yield session;
except Exception: await session.rollback(); raise`. Given the body's outcome,
return the propagated outcome and the session operations performed: an
`Exception` failure triggers one `rollback` before re-raising; any other
outcome (normal return, or a non-`Exception` `BaseException`) performs none;
the `async with` exit closes the session on every path. -/
def get_session {α : Type} (body : Except PyExc α) :
    Except PyExc α × List SessionEvent :=
  match body with
  | .ok a => (.ok a, [.close])
  | .error e =>
      if e.isException then (.error e, [.rollback, .close])
      else (.error e, [.close])

/-! ## Health diagnostics (health.py) -/

/-- An error raised while a probe talks to the store: an `SQLAlchemyError`
or any other unexpected `Exception`. -/
inductive ProbeErr where
  | sqlalchemyError (msg : String)
  | unexpected (msg : String)
deriving DecidableEq, Repr

/-- A row of the `pg_extension` catalog returned for `extname = 'vector'`. -/
structure ExtRow where
  extname : String
  extversion : String
deriving DecidableEq, Repr

/-- One named sub-check of a health report: a status plus the detail fields
any of the probes may attach. -/
structure SubCheck where
  status : String
  message : Option String := none
  pool_size : Option Int := none
  checked_in : Option Int := none
  checked_out : Option Int := none
  overflow : Option Int := none
  total_connections : Option Int := none
deriving DecidableEq, Repr

/-- A health report: a top-level status and the `checks` dictionary
(association list in insertion order; the timestamp is not modelled). -/
structure HealthResult where
  status : String
  checks : List (String × SubCheck)
deriving DecidableEq, Repr

/-- `DatabaseHealthChecker.check_basic_connectivity` (health.py lines 23-56),
as a function of the outcome of `session.execute(select(1))`. -/
def check_basic_connectivity (query : Except ProbeErr Unit) : HealthResult :=
  match query with
  | .ok _ =>
      ⟨"healthy", [("connectivity",
        { status := "healthy", message := some "Database connection successful" })]⟩
  | .error (.sqlalchemyError m) =>
      ⟨"unhealthy", [("connectivity",
        { status := "unhealthy", message := some ("Database connection failed: " ++ m) })]⟩
  | .error (.unexpected m) =>
      ⟨"unhealthy", [("connectivity",
        { status := "unhealthy", message := some ("Unexpected error: " ++ m) })]⟩

/-- The message the `except` arms of `check_pgvector_extension` produce. -/
def pgvectorErrMsg : ProbeErr → String
  | .sqlalchemyError m => "pgvector check failed: " ++ m
  | .unexpected m => "Unexpected error: " ++ m

/-- `DatabaseHealthChecker.check_pgvector_extension` (health.py lines 58-118),
as a function of the catalog query's outcome (`extQuery`: an error, no row, or
the extension row) and of the vector-distance test query's outcome (`vecQuery`,
consulted only when the row was found). When the distance query raises, the
handler overwrites the `pgvector_extension` entry and `vector_operations` is
never inserted. -/
def check_pgvector_extension (extQuery : Except ProbeErr (Option ExtRow))
    (vecQuery : Except ProbeErr String) : HealthResult :=
  match extQuery with
  | .ok (some row) =>
      match vecQuery with
      | .ok distance =>
          ⟨"healthy",
            [("pgvector_extension",
              { status := "healthy",
                message := some ("pgvector extension version " ++ row.extversion ++ " is installed") }),
             ("vector_operations",
              { status := "healthy",
                message := some ("Vector distance calculation successful: " ++ distance) })]⟩
      | .error e =>
          ⟨"unhealthy", [("pgvector_extension",
            { status := "unhealthy", message := some (pgvectorErrMsg e) })]⟩
  | .ok none =>
      ⟨"unhealthy", [("pgvector_extension",
        { status := "unhealthy", message := some "pgvector extension is not installed" })]⟩
  | .error e =>
      ⟨"unhealthy", [("pgvector_extension",
        { status := "unhealthy", message := some (pgvectorErrMsg e) })]⟩

/-- The live pool counters (`pool.size()`, `pool.checkedin()`,
`pool.checkedout()`, `pool.overflow()`). -/
structure PoolCounters where
  size : Int
  checkedin : Int
  checkedout : Int
  overflow : Int
deriving DecidableEq, Repr

/-- `DatabaseHealthChecker.check_pool_status` (health.py lines 120-157), as a
function of the outcome of reading the counters: on success the probe is
healthy and reports `total_connections = pool_size + overflow`; only an
exception while reading makes it unhealthy. -/
def check_pool_status (poolRead : Except String PoolCounters) : HealthResult :=
  match poolRead with
  | .ok p =>
      ⟨"healthy", [("connection_pool",
        { status := "healthy", pool_size := some p.size, checked_in := some p.checkedin,
          checked_out := some p.checkedout, overflow := some p.overflow,
          total_connections := some (p.size + p.overflow) })]⟩
  | .error e =>
      ⟨"unhealthy", [("connection_pool",
        { status := "unhealthy", message := some ("Pool status check failed: " ++ e) })]⟩

/-- Python dict assignment `m[k] = v` on an association list: overwrite the
entry in place when the key exists, append otherwise. -/
def dictInsert (m : List (String × SubCheck)) (k : String) (v : SubCheck) :
    List (String × SubCheck) :=
  if m.any (fun p => p.1 == k) then m.map (fun p => if p.1 == k then (k, v) else p)
  else m ++ [(k, v)]

/-- Python `{**a, **b}`: entries of `b` merged into `a`, later keys winning. -/
def dictMerge (a b : List (String × SubCheck)) : List (String × SubCheck) :=
  b.foldl (fun acc p => dictInsert acc p.1 p.2) a

/-- `DatabaseHealthChecker.comprehensive_health_check` (health.py lines
159-185): run the three probes, mark the composite unhealthy when any probe's
status differs from `"healthy"`, and merge the probes' `checks` dictionaries. -/
def comprehensive_health_check (connQuery : Except ProbeErr Unit)
    (extQuery : Except ProbeErr (Option ExtRow)) (vecQuery : Except ProbeErr String)
    (poolRead : Except String PoolCounters) : HealthResult :=
  let connectivity_check := check_basic_connectivity connQuery
  let pgvector_check := check_pgvector_extension extQuery vecQuery
  let pool_check := check_pool_status poolRead
  let overall_status :=
    if connectivity_check.status ≠ "healthy" ∨ pgvector_check.status ≠ "healthy" ∨
        pool_check.status ≠ "healthy" then "unhealthy"
    else "healthy"
  ⟨overall_status,
    dictMerge (dictMerge connectivity_check.checks pgvector_check.checks) pool_check.checks⟩

/-! ## Helper lemmas -/

/-- An `ok` result is ok. -/
theorem isOk_ok {ε α : Type} (a : α) : (Except.ok a : Except ε α).isOk = true := rfl

/-- An `error` result is not ok. -/
theorem isOk_error {ε α : Type} (e : ε) : (Except.error e : Except ε α).isOk = false := rfl

/-- Every entry of `dictInsert m k v` is an entry of `m` or is `(k, v)`. -/
theorem dictInsert_mem (m : List (String × SubCheck)) (k : String) (v : SubCheck) :
    ∀ e ∈ dictInsert m k v, e ∈ m ∨ e = (k, v) := by
  intro e he
  unfold dictInsert at he
  split_ifs at he
  · obtain ⟨p, hp, hpe⟩ := List.mem_map.mp he
    by_cases hk : p.1 == k
    · simp only [if_pos hk] at hpe
      exact Or.inr hpe.symm
    · simp only [if_neg hk] at hpe
      exact Or.inl (hpe ▸ hp)
  · rcases List.mem_append.mp he with h | h
    · exact Or.inl h
    · exact Or.inr (by simpa using h)

/-- Every entry of `dictMerge a b` is an entry of `a` or of `b`. -/
theorem dictMerge_mem (a b : List (String × SubCheck)) :
    ∀ e ∈ dictMerge a b, e ∈ a ∨ e ∈ b := by
  unfold dictMerge
  induction b generalizing a with
  | nil => intro e he; exact Or.inl he
  | cons p t ih =>
      intro e he
      simp only [List.foldl_cons] at he
      rcases ih (dictInsert a p.1 p.2) e he with h | h
      · rcases dictInsert_mem a p.1 p.2 e h with h' | h'
        · exact Or.inl h'
        · exact Or.inr (by simp [h'])
      · exact Or.inr (List.mem_cons_of_mem _ h)

/-! ## Theorems for the claims -/

/-- Claim C4: validation of `VectorDocument.embedding` succeeds exactly on
lists of 1536 numeric elements, returning the list unchanged; a 768-element
list fails with the dimension-mismatch message, a string fails with the type
message, and a 1536-element list with one non-numeric element fails with the
non-numeric-element message. -/
theorem embedding_validation_characterization :
    (∀ v : PyVal, (validate_embedding v).isOk = true ↔
        ∃ xs : List PyVal, v = PyVal.pyList xs ∧ xs.length = 1536 ∧ xs.all isNumber = true) ∧
    (∀ xs : List PyVal, xs.length = 1536 → xs.all isNumber = true →
        validate_embedding (PyVal.pyList xs) = .ok xs) ∧
    validate_embedding (PyVal.pyList (List.replicate 1536 (PyVal.pyFloat 0))) =
      .ok (List.replicate 1536 (PyVal.pyFloat 0)) ∧
    validate_embedding (PyVal.pyList (List.replicate 768 (PyVal.pyFloat 0))) =
      .error "Embedding must be exactly 1536 dimensions, got 768" ∧
    validate_embedding (PyVal.pyStr "not a list") = .error "Embedding must be a list of floats" ∧
    validate_embedding (PyVal.pyList (List.replicate 1535 (PyVal.pyFloat 0) ++ [PyVal.pyStr "x"])) =
      .error "All embedding values must be numbers" := by
  refine ⟨?_, ?_, by rfl, by rfl, by rfl, by rfl⟩
  · intro v
    cases v with
    | pyList xs =>
        constructor
        · intro h
          refine ⟨xs, rfl, ?_⟩
          by_cases h1 : xs.length = 1536
          · by_cases h2 : xs.all isNumber = true
            · exact ⟨h1, h2⟩
            · exfalso; simp [validate_embedding, h1, h2, isOk_error] at h
          · exfalso; simp [validate_embedding, h1, isOk_error] at h
        · rintro ⟨ys, hv, h1, h2⟩
          injection hv with hxy
          subst hxy
          simp [validate_embedding, h1, h2, isOk_ok]
    | pyInt n => simp [validate_embedding, isOk_error]
    | pyFloat n => simp [validate_embedding, isOk_error]
    | pyBool b => simp [validate_embedding, isOk_error]
    | pyStr s => simp [validate_embedding, isOk_error]
    | pyNone => simp [validate_embedding, isOk_error]
  · intro xs h1 h2
    simp [validate_embedding, h1, h2]

/-- Claim C5 counterexample: `validate_url` accepts
`"https://gitlab.com/user/repo?ref=github.com"` although its host is
`gitlab.com`, because the code only checks that the lowercase URL contains
`"github.com"` somewhere as a substring. -/
theorem url_validation_counterexample :
    (validate_url "https://gitlab.com/user/repo?ref=github.com").isOk = true ∧
    spec_url_is_github "https://gitlab.com/user/repo?ref=github.com" = false := by
  exact ⟨rfl, rfl⟩

/-- Claim C5 amended: validation succeeds iff the value is non-empty, matches
the basic URL regex `^https?://[^\s/$.?#].[^\s]*$`, and contains
`"github.com"` (case-insensitively) anywhere as a substring — not necessarily
as the host; the three example URLs behave as the claim states. -/
theorem url_validation_amended :
    validate_url "https://github.com/user/repo" = .ok "https://github.com/user/repo" ∧
    validate_url "https://gitlab.com/user/repo" = .error "URL must be a GitHub repository" ∧
    validate_url "not-a-valid-url" = .error "Invalid GitHub URL format" ∧
    (∀ s : String, (validate_url s).isOk = true ↔
        s ≠ "" ∧ pyUrlRegexMatch s = true ∧ strContains (pyLower s) "github.com" = true) := by
  refine ⟨by rfl, by rfl, by rfl, ?_⟩
  intro s
  by_cases h1 : s = ""
  · subst h1
    simp [validate_url, isOk_error]
  · by_cases h2 : pyUrlRegexMatch s = true
    · by_cases h3 : strContains (pyLower s) "github.com" = true
      · simp [validate_url, h1, h2, h3, isOk_ok]
      · simp [validate_url, h1, h2, h3, isOk_error]
    · simp [validate_url, h1, h2, isOk_error]

/-- Claim C6 counterexample: `VectorDocument` construction accepts an empty
and a whitespace-only `content` (there is no content validator on
`VectorDocument`), while the same strings are rejected by
`Document._validate_content`. -/
theorem vectordocument_empty_content_counterexample :
    (VectorDocument_new "" (PyVal.pyList (List.replicate 1536 (PyVal.pyFloat 0)))).isOk = true ∧
    (VectorDocument_new "   " (PyVal.pyList (List.replicate 1536 (PyVal.pyFloat 0)))).isOk = true ∧
    (Document_new "t" (some "") 1).isOk = false ∧
    (Document_new "t" (some "   ") 1).isOk = false := by
  exact ⟨rfl, rfl, rfl, rfl⟩

/-- Claim C6 amended: `Document.content` is validated non-empty-after-trim at
the point of assignment, but `VectorDocument.content` has no assignment-time
validation at all: `VectorDocument` construction succeeds regardless of its
content whenever the embedding is valid. -/
theorem content_validation_amended :
    (∀ s : String, (document_validate_content (some s)).isOk = true ↔ ¬(pyStrip s = "")) ∧
    (document_validate_content none).isOk = false ∧
    (∀ (t c : String) (rid : Int),
        (Document_new t (some c) rid).isOk = (document_validate_content (some c)).isOk) ∧
    (∀ (c : String) (emb : PyVal),
        (VectorDocument_new c emb).isOk = (validate_embedding emb).isOk) ∧
    (document_validate_content (some "   ")).isOk = false := by
  refine ⟨?_, by rfl, ?_, ?_, by rfl⟩
  · intro s
    by_cases h0 : s = ""
    · subst h0; decide
    · by_cases h1 : pyStrip s = ""
      · simp [document_validate_content, h0, h1, isOk_error]
      · simp [document_validate_content, h0, h1, isOk_ok]
  · intro t c rid
    cases h : document_validate_content (some c) with
    | ok v => simp [Document_new, h, isOk_ok]
    | error e => simp [Document_new, h, isOk_error]
  · intro c emb
    cases h : validate_embedding emb with
    | ok v => simp [VectorDocument_new, h, isOk_ok]
    | error e => simp [VectorDocument_new, h, isOk_error]

/-- Claim C7: the status/type validators of `Job` and `Repository` accept an
enumeration member directly, coerce a raw string to the member carrying that
value, fail on any string outside the enumeration with a message listing the
accepted values, and never produce a value outside the enumeration;
`"invalid_status"` fails while each of the five `JobStatus` values succeeds. -/
theorem enum_validation_characterization :
    (∀ m : JobStatus, job_validate_status (.inl m) = .ok m) ∧
    (∀ (s : String) (m : JobStatus), job_validate_status (.inr s) = .ok m → m.value = s) ∧
    (∀ s : String, (job_validate_status (.inr s)).isOk = true ↔
        s = "pending" ∨ s = "running" ∨ s = "completed" ∨ s = "failed" ∨ s = "cancelled") ∧
    (∀ s : String, (job_validate_status (.inr s)).isOk = false →
        job_validate_status (.inr s) =
          .error "Status must be one of: pending, running, completed, failed, cancelled") ∧
    job_validate_status (.inr "invalid_status") =
      .error "Status must be one of: pending, running, completed, failed, cancelled" ∧
    (job_validate_status (.inr "pending") = .ok .pending ∧
      job_validate_status (.inr "running") = .ok .running ∧
      job_validate_status (.inr "completed") = .ok .completed ∧
      job_validate_status (.inr "failed") = .ok .failed ∧
      job_validate_status (.inr "cancelled") = .ok .cancelled) ∧
    (∀ m : RepositoryStatus, repository_validate_status (.inl m) = .ok m) ∧
    (∀ (s : String) (m : RepositoryStatus),
        repository_validate_status (.inr s) = .ok m → m.value = s) ∧
    (∀ s : String, (repository_validate_status (.inr s)).isOk = true ↔
        s = "pending" ∨ s = "cloning" ∨ s = "processing" ∨ s = "completed" ∨ s = "failed") ∧
    (∀ s : String, (repository_validate_status (.inr s)).isOk = false →
        repository_validate_status (.inr s) =
          .error "Status must be one of: pending, cloning, processing, completed, failed") ∧
    repository_validate_status (.inr "invalid_status") =
      .error "Status must be one of: pending, cloning, processing, completed, failed" ∧
    (∀ m : JobType, job_validate_job_type (.inl m) = .ok m) ∧
    (∀ (s : String) (m : JobType), job_validate_job_type (.inr s) = .ok m → m.value = s) ∧
    (∀ s : String, (job_validate_job_type (.inr s)).isOk = true ↔
        s = "clone" ∨ s = "analysis" ∨ s = "embedding" ∨ s = "indexing" ∨ s = "cleanup") ∧
    (∀ s : String, (job_validate_job_type (.inr s)).isOk = false →
        job_validate_job_type (.inr s) =
          .error "Job type must be one of: clone, analysis, embedding, indexing, cleanup") := by
  refine ⟨fun m => rfl, ?_, ?_, ?_, by rfl, ⟨by rfl, by rfl, by rfl, by rfl, by rfl⟩,
    fun m => rfl, ?_, ?_, ?_, by rfl, fun m => rfl, ?_, ?_, ?_⟩
  · intro s m h
    simp only [job_validate_status, jobStatusOfString] at h
    split_ifs at h with h1 h2 h3 h4 h5 <;>
      (injection h with h'; subst h'; simp_all [JobStatus.value])
  · intro s
    simp only [job_validate_status, jobStatusOfString]
    split_ifs with h1 h2 h3 h4 h5 <;> simp_all [isOk_ok, isOk_error]
  · intro s h
    simp only [job_validate_status, jobStatusOfString] at h ⊢
    split_ifs at h ⊢ <;> simp_all [isOk_ok]
  · intro s m h
    simp only [repository_validate_status, repositoryStatusOfString] at h
    split_ifs at h with h1 h2 h3 h4 h5 <;>
      (injection h with h'; subst h'; simp_all [RepositoryStatus.value])
  · intro s
    simp only [repository_validate_status, repositoryStatusOfString]
    split_ifs with h1 h2 h3 h4 h5 <;> simp_all [isOk_ok, isOk_error]
  · intro s h
    simp only [repository_validate_status, repositoryStatusOfString] at h ⊢
    split_ifs at h ⊢ <;> simp_all [isOk_ok]
  · intro s m h
    simp only [job_validate_job_type, jobTypeOfString] at h
    split_ifs at h with h1 h2 h3 h4 h5 <;>
      (injection h with h'; subst h'; simp_all [JobType.value])
  · intro s
    simp only [job_validate_job_type, jobTypeOfString]
    split_ifs with h1 h2 h3 h4 h5 <;> simp_all [isOk_ok, isOk_error]
  · intro s h
    simp only [job_validate_job_type, jobTypeOfString] at h ⊢
    split_ifs at h ⊢ <;> simp_all [isOk_ok]

/-- Claim C1: the `engine` property is lazy and a singleton — a fresh manager
constructs the engine from its stored configuration on the first read, and any
read after a read returns the identical instance with the state unchanged;
`get_async_engine` returns an existing global manager unchanged, and after a
first successful construction every later call returns the same instance. -/
theorem engine_acquisition_lazy_singleton :
    (∀ (mid freshId : Nat) (cfg : EngineConfig),
        DatabaseEngine.engine (DatabaseEngine_init mid cfg) freshId =
          (⟨freshId, cfg⟩, ⟨mid, cfg, some ⟨freshId, cfg⟩, none⟩)) ∧
    (∀ (s : DatabaseEngineState) (n m : Nat),
        DatabaseEngine.engine (DatabaseEngine.engine s n).2 m =
          ((DatabaseEngine.engine s n).1, (DatabaseEngine.engine s n).2)) ∧
    (∀ (env : String → Option String) (m : DatabaseEngineState) (freshId : Nat),
        get_async_engine env (some m) freshId = .ok (m, some m)) ∧
    (∀ (env : String → Option String) (freshId freshId2 : Nat) (m : DatabaseEngineState)
        (g : Option DatabaseEngineState),
        get_async_engine env none freshId = .ok (m, g) →
          g = some m ∧ get_async_engine env g freshId2 = .ok (m, g)) := by
  refine ⟨fun mid freshId cfg => rfl, ?_, fun env m freshId => rfl, ?_⟩
  · intro s n m
    cases h : s._engine with
    | some e => simp [DatabaseEngine.engine, h]
    | none => simp [DatabaseEngine.engine, h]
  · intro env freshId freshId2 m g h
    have hg : g = some m := by
      cases henv : env "DATABASE_URL" with
      | none => simp [get_async_engine, henv] at h
      | some url =>
          by_cases hu : url = ""
          · simp [get_async_engine, henv, hu] at h
          · cases hps : pyParseInt ((env "DB_POOL_SIZE").getD "10") with
            | error e => simp [get_async_engine, henv, hu, hps] at h
            | ok ps =>
                cases hmo : pyParseInt ((env "DB_MAX_OVERFLOW").getD "20") with
                | error e => simp [get_async_engine, henv, hu, hps, hmo] at h
                | ok mo =>
                    cases hpt : pyParseInt ((env "DB_POOL_TIMEOUT").getD "30") with
                    | error e => simp [get_async_engine, henv, hu, hps, hmo, hpt] at h
                    | ok pt =>
                        cases hpr : pyParseInt ((env "DB_POOL_RECYCLE").getD "3600") with
                        | error e => simp [get_async_engine, henv, hu, hps, hmo, hpt, hpr] at h
                        | ok pr =>
                            simp [get_async_engine, henv, hu, hps, hmo, hpt, hpr] at h
                            exact h.2.symm ▸ (by rw [← h.1])
    subst hg
    exact ⟨rfl, rfl⟩

/-- Claim C2 counterexample: a `BaseException` that is not an `Exception`
(here `KeyboardInterrupt`) raised inside the session scope is not caught by
the `except Exception` clause, so it propagates without any rollback — the
claim's "every exception triggers exactly one rollback" fails for it. -/
theorem session_rollback_counterexample :
    (get_session (Except.error (PyExc.baseExc "KeyboardInterrupt") : Except PyExc Unit)).2.count
        SessionEvent.rollback = 0 ∧
    (get_session (Except.error (PyExc.baseExc "KeyboardInterrupt") : Except PyExc Unit)).1 =
      Except.error (PyExc.baseExc "KeyboardInterrupt") := by
  exact ⟨rfl, rfl⟩

/-- Claim C2 amended: for every `Exception`-derived failure of the caller's
body, the session's rollback runs exactly once and the original failure is
re-raised unchanged; a normal exit performs no rollback; a `BaseException`
that is not an `Exception` also propagates unchanged but without the explicit
rollback; the session is closed on every path. -/
theorem session_rollback_amended :
    (∀ (α : Type) (a : α),
        get_session (Except.ok a : Except PyExc α) = (.ok a, [SessionEvent.close])) ∧
    (∀ (α : Type) (m : String),
        get_session (Except.error (PyExc.exc m) : Except PyExc α) =
          (.error (.exc m), [SessionEvent.rollback, SessionEvent.close])) ∧
    (∀ (α : Type) (m : String),
        (get_session (Except.error (PyExc.exc m) : Except PyExc α)).2.count
          SessionEvent.rollback = 1) ∧
    (∀ (α : Type) (a : α),
        (get_session (Except.ok a : Except PyExc α)).2.count SessionEvent.rollback = 0) ∧
    (∀ (α : Type) (m : String),
        get_session (Except.error (PyExc.baseExc m) : Except PyExc α) =
          (.error (.baseExc m), [SessionEvent.close])) ∧
    (∀ (α : Type) (body : Except PyExc α), (get_session body).1 = body) ∧
    (∀ (α : Type) (body : Except PyExc α),
        (get_session body).2.count SessionEvent.close = 1) := by
  refine ⟨fun α a => rfl, fun α m => rfl, fun α m => rfl, fun α a => rfl, fun α m => rfl,
    ?_, ?_⟩
  · intro α body
    cases body with
    | ok a => rfl
    | error e => cases e <;> rfl
  · intro α body
    cases body with
    | ok a => rfl
    | error e => cases e <;> rfl

/-- Claim C3: the composite report is `"unhealthy"` exactly when at least one
of the three probe results is not `"healthy"`; when all three are healthy the
composite and every merged sub-check are healthy; in the
connectivity-healthy/extension-missing scenario the composite is unhealthy and
the `pgvector_extension` sub-check is unhealthy with a message containing
"not installed". -/
theorem composite_status_aggregation :
    (∀ (co : Except ProbeErr Unit) (ex : Except ProbeErr (Option ExtRow))
        (ve : Except ProbeErr String) (po : Except String PoolCounters),
        ((comprehensive_health_check co ex ve po).status = "unhealthy" ↔
          ¬((check_basic_connectivity co).status = "healthy" ∧
            (check_pgvector_extension ex ve).status = "healthy" ∧
            (check_pool_status po).status = "healthy")) ∧
        ((check_basic_connectivity co).status = "healthy" →
          (check_pgvector_extension ex ve).status = "healthy" →
          (check_pool_status po).status = "healthy" →
            (comprehensive_health_check co ex ve po).status = "healthy" ∧
            ∀ e ∈ (comprehensive_health_check co ex ve po).checks, e.2.status = "healthy")) ∧
    ((comprehensive_health_check (.ok ()) (.ok none) (.ok "1.0") (.ok ⟨10, 5, 5, 3⟩)).status =
        "unhealthy" ∧
      (comprehensive_health_check (.ok ()) (.ok none) (.ok "1.0")
            (.ok ⟨10, 5, 5, 3⟩)).checks.lookup "pgvector_extension" =
        some { status := "unhealthy", message := some "pgvector extension is not installed" } ∧
      strContains "pgvector extension is not installed" "not installed" = true) ∧
    ((comprehensive_health_check (.ok ()) (.ok (some ⟨"vector", "0.5.1"⟩)) (.ok "1.0")
        (.ok ⟨10, 5, 5, 3⟩)).status = "healthy") := by
  refine ⟨?_, ⟨by rfl, by rfl, by rfl⟩, by rfl⟩
  intro co ex ve po
  constructor
  · unfold comprehensive_health_check
    dsimp only
    split_ifs with hC
    · exact iff_of_true rfl (by tauto)
    · refine iff_of_false (by decide) ?_
      push_neg at hC
      tauto
  · intro h1 h2 h3
    have hcomp : (comprehensive_health_check co ex ve po).status = "healthy" := by
      unfold comprehensive_health_check
      dsimp only
      rw [if_neg]
      push_neg
      exact ⟨h1, h2, h3⟩
    refine ⟨hcomp, ?_⟩
    intro e he
    have hmem := dictMerge_mem _ _ e
      (by
        unfold comprehensive_health_check at he
        dsimp only at he
        exact he)
    rcases hmem with hm | hm
    · rcases dictMerge_mem _ _ e hm with hm' | hm'
      · -- from the connectivity probe
        cases co with
        | ok u =>
            simp only [check_basic_connectivity] at hm'
            simp only [List.mem_singleton] at hm'
            subst hm'
            rfl
        | error err =>
            exfalso
            cases err <;> simp [check_basic_connectivity] at h1
      · -- from the pgvector probe
        cases ex with
        | ok orow =>
            cases orow with
            | some row =>
                cases ve with
                | ok d =>
                    simp only [check_pgvector_extension, List.mem_cons,
                      List.mem_singleton] at hm'
                    rcases hm' with hm' | hm' | hm'
                    · subst hm'; rfl
                    · subst hm'; rfl
                    · cases hm'
                | error err => exfalso; simp [check_pgvector_extension] at h2
            | none => exfalso; simp [check_pgvector_extension] at h2
        | error err => exfalso; simp [check_pgvector_extension] at h2
    · -- from the pool probe
      cases po with
      | ok p =>
          simp only [check_pool_status, List.mem_singleton] at hm
          subst hm
          rfl
      | error err => exfalso; simp [check_pool_status] at h3

/-- Claim C8: `check_pool_status` reports
`total_connections = pool_size + overflow` and is healthy whenever the
counters are read without an exception, regardless of their values; an
exception while reading makes it unhealthy; `pool_size = 10` with
`overflow = 3` yields `total_connections = 13`. -/
theorem pool_status_reporting :
    (∀ p : PoolCounters,
        check_pool_status (.ok p) =
          ⟨"healthy", [("connection_pool",
            { status := "healthy", pool_size := some p.size, checked_in := some p.checkedin,
              checked_out := some p.checkedout, overflow := some p.overflow,
              total_connections := some (p.size + p.overflow) })]⟩) ∧
    (∀ e : String,
        check_pool_status (.error e) =
          ⟨"unhealthy", [("connection_pool",
            { status := "unhealthy",
              message := some ("Pool status check failed: " ++ e) })]⟩) ∧
    check_pool_status (.ok ⟨10, 7, 3, 3⟩) =
      ⟨"healthy", [("connection_pool",
        { status := "healthy", pool_size := some 10, checked_in := some 7,
          checked_out := some 3, overflow := some 3,
          total_connections := some 13 })]⟩ := by
  exact ⟨fun p => rfl, fun e => rfl, by rfl⟩

/-- Claim C9: `close` is idempotent — the second close in a row is a no-op
that performs no disposal (so it cannot raise), closing an uninitialized
manager is a no-op, after a close both internal slots are uninitialized (the
session-factory slot whenever an engine had been constructed), a subsequent
engine read constructs a fresh pool from the stored configuration, and the
global `close_database_engine` clears the slot and is likewise idempotent. -/
theorem shutdown_idempotent_and_resets :
    (∀ s : DatabaseEngineState,
        DatabaseEngine.close (DatabaseEngine.close s).1 = ((DatabaseEngine.close s).1, 0)) ∧
    (∀ s : DatabaseEngineState, s._engine = none → DatabaseEngine.close s = (s, 0)) ∧
    (∀ s : DatabaseEngineState, ((DatabaseEngine.close s).1)._engine = none) ∧
    (∀ s : DatabaseEngineState, s._engine.isSome = true →
        ((DatabaseEngine.close s).1)._session_factory = none) ∧
    (∀ (s : DatabaseEngineState) (n : Nat),
        DatabaseEngine.engine (DatabaseEngine.close s).1 n =
          (⟨n, s.config⟩,
            { (DatabaseEngine.close s).1 with _engine := some ⟨n, s.config⟩ })) ∧
    (∀ g : Option DatabaseEngineState, (close_database_engine g).1 = none) ∧
    (∀ g : Option DatabaseEngineState,
        close_database_engine (close_database_engine g).1 = (none, 0)) := by
  refine ⟨?_, ?_, ?_, ?_, ?_, ?_, ?_⟩
  · intro s
    cases h : s._engine with
    | some e => simp [DatabaseEngine.close, h]
    | none => simp [DatabaseEngine.close, h]
  · intro s h
    simp [DatabaseEngine.close, h]
  · intro s
    cases h : s._engine with
    | some e => simp [DatabaseEngine.close, h]
    | none => simp [DatabaseEngine.close, h]
  · intro s h
    cases hs : s._engine with
    | some e => simp [DatabaseEngine.close, hs]
    | none => rw [hs] at h; cases h
  · intro s n
    cases h : s._engine with
    | some e => simp [DatabaseEngine.close, DatabaseEngine.engine, h]
    | none => simp [DatabaseEngine.close, DatabaseEngine.engine, h]
  · intro g
    cases g <;> rfl
  · intro g
    cases g <;> rfl

/-- Claim C10: when the extension catalog query returns no row, the report has
a `pgvector_extension` entry marked unhealthy and no `vector_operations` key
at all — that key appears only when the row was found — so the composite
`checks` mapping has three keys in the missing-extension scenario and four in
the healthy scenario. -/
theorem extension_report_key_variability :
    (∀ ve : Except ProbeErr String,
        (check_pgvector_extension (.ok none) ve).checks.lookup "pgvector_extension" =
          some { status := "unhealthy",
                 message := some "pgvector extension is not installed" } ∧
        (check_pgvector_extension (.ok none) ve).checks.lookup "vector_operations" = none) ∧
    (∀ (co : Except ProbeErr Unit) (ve : Except ProbeErr String)
        (po : Except String PoolCounters),
        (comprehensive_health_check co (.ok none) ve po).checks.lookup "vector_operations" =
          none) ∧
    (∀ (row : ExtRow) (d : String),
        (check_pgvector_extension (.ok (some row)) (.ok d)).checks.lookup "vector_operations" =
          some { status := "healthy",
                 message := some ("Vector distance calculation successful: " ++ d) }) ∧
    ((comprehensive_health_check (.ok ()) (.ok (some ⟨"vector", "0.5.1"⟩)) (.ok "1.0")
        (.ok ⟨10, 5, 5, 3⟩)).checks.map Prod.fst =
      ["connectivity", "pgvector_extension", "vector_operations", "connection_pool"]) ∧
    ((comprehensive_health_check (.ok ()) (.ok none) (.ok "1.0")
        (.ok ⟨10, 5, 5, 3⟩)).checks.map Prod.fst =
      ["connectivity", "pgvector_extension", "connection_pool"]) := by
  refine ⟨fun ve => ⟨rfl, rfl⟩, ?_, fun row d => rfl, by rfl, by rfl⟩
  intro co ve po
  cases co with
  | ok u => cases po <;> rfl
  | error err => cases err <;> cases po <;> rfl

end Mindbridge
